import Mathlib

/-!
Verification development for the ZenCompta Compliance & Anomaly Detection
Engine.  The repository ships the UI callers of the engine (React
components under src/frontend); the engine itself (normalizer, the four
validator families, aggregator and alert emitter) is described by the
specification but is not present under src/.  Definitions for those
components are therefore modelled from the specification text and are
marked as such in their doc comments.  The Dashboard component of
ComplianceCenter.jsx, which is present in the source, is embedded
directly from the code.
-/

set_option allowUnsafeReducibility true

/- Batteries marks rational arithmetic irreducible, which blocks the
definitional evaluation of concrete compliance scores; the development
evaluates witnesses on concrete inputs, so default reducibility is
restored for the four operations. -/
attribute [semireducible] Rat.add Rat.sub Rat.mul Rat.inv

namespace ZenCompta

/-- Severity of a rule or finding, per the spec data model
(info, warning, error, critical). -/
inductive Severity
  | info
  | warning
  | error
  | critical
deriving DecidableEq

/-- Calendar date with explicit year, month and day fields. -/
structure Date where
  year : Nat
  month : Nat
  day : Nat
deriving DecidableEq

/-- Modelled from the spec data model: an accounting entry with a signed
minor-unit integer amount (no floating point). -/
structure AccountingEntry where
  id : Nat
  account_code : String
  account_label : String
  date : Date
  amount : Int
  currency : String
  document_source : String
  description : String
  counterpart_account : Option String
deriving DecidableEq

/-- Declared type of an imported document (balance, journal, ledger). -/
inductive DeclaredType
  | balance
  | journal
  | ledger
deriving DecidableEq

/-- Modelled from the spec data model: a named collection of accounting
entries with a declared type. -/
structure Document where
  name : String
  declaredType : DeclaredType
  entries : List AccountingEntry
deriving DecidableEq

/-- Modelled from the spec data model: a finding produced by a validator,
with a source (rule id or validator name), severity, affected entry ids,
message and a score in [0,1] represented as an exact rational. -/
structure Finding where
  source : String
  severity : Severity
  affected_entry_ids : List Nat
  message : String
  score : Rat
deriving DecidableEq

/-- Count of findings per severity, part of a compliance report. -/
structure SeverityDist where
  critical : Nat
  error : Nat
  warning : Nat
  info : Nat
deriving DecidableEq

/-- Modelled from the spec data model: the aggregated result of one
validation run. -/
structure ComplianceReport where
  standard : String
  compliance_score : Rat
  findings : List Finding
  severity_distribution : SeverityDist
  recommendations : List String
  processing_time : Rat
deriving DecidableEq

/-! ## Dashboard status badge (embedded from
src/frontend/src/components/ComplianceCenter.jsx, Dashboard component)

The Dashboard component imports, from lucide-react, exactly the names
FileText, Plus, Calendar, Building, BarChart3, Download, Eye, ArrowLeft,
CheckCircle, Clock, AlertCircle and Shield, plus the ui-kit components
and React hooks.  `getStatusBadge` builds a `statusConfig` object literal
whose `draft` entry has `icon: Edit`; the identifier `Edit` is not bound
anywhere in the module, so evaluating the literal throws a
ReferenceError.  The embedding models identifier resolution explicitly:
the module scope is a list of bound names and an icon identifier outside
that list fails to resolve. -/

/-- Names bound in the Dashboard module scope of ComplianceCenter.jsx:
the two React hooks, the ui-kit imports, the lucide-react icon imports
(lines 628-641) and the two components declared in the module. -/
def dashboardScope : List String :=
  ["useState", "useEffect",
   "Button", "Card", "CardContent", "CardDescription", "CardHeader",
   "CardTitle", "Input", "Label", "Select", "SelectContent", "SelectItem",
   "SelectTrigger", "SelectValue", "Badge", "Tabs", "TabsContent",
   "TabsList", "TabsTrigger", "Alert", "AlertDescription",
   "FileText", "Plus", "Calendar", "Building", "BarChart3", "Download",
   "Eye", "ArrowLeft", "CheckCircle", "Clock", "AlertCircle", "Shield",
   "Dashboard", "ProjectDetail"]

/-- Configuration record used by `getStatusBadge` for one project status:
label, badge variant and the name of the icon identifier. -/
structure StatusConfig where
  label : String
  variant : String
  icon : String
deriving DecidableEq

/-- The `statusConfig` object literal of `getStatusBadge` (lines 741-745):
draft maps to the icon identifier Edit, in_progress to Clock, completed
to CheckCircle. -/
def statusConfigList : List (String × StatusConfig) :=
  [("draft", ⟨"Brouillon", "secondary", "Edit"⟩),
   ("in_progress", ⟨"En cours", "default", "Clock"⟩),
   ("completed", ⟨"Terminé", "success", "CheckCircle"⟩)]

/-- The configuration selected for a status:
`statusConfig[status] || statusConfig.draft` (line 747), so any status
outside the three keys falls back to the draft configuration. -/
def statusConfigFor (status : String) : StatusConfig :=
  ((statusConfigList.find? (fun p => p.1 == status)).map (fun p => p.2)).getD
    ⟨"Brouillon", "secondary", "Edit"⟩

/-- A rendered badge element: label, variant and resolved icon. -/
structure BadgeElem where
  label : String
  variant : String
  icon : String
deriving DecidableEq

/-- Icon identifiers of the `statusConfig` literal that do not resolve in
the Dashboard module scope.  Evaluating the object literal resolves every
icon identifier, so any unresolved name aborts `getStatusBadge`. -/
def unresolvedIcons : List String :=
  (statusConfigList.map (fun p => p.2.icon)).filter
    (fun n => !(dashboardScope.contains n))

/-- Embedded from `getStatusBadge` (lines 740-756): building the
`statusConfig` literal evaluates each icon identifier; an unbound
identifier raises a ReferenceError, otherwise the badge for the selected
configuration is returned. -/
def getStatusBadge (status : String) : Except String BadgeElem :=
  match unresolvedIcons with
  | n :: _ => Except.error ("ReferenceError: " ++ n ++ " is not defined")
  | [] =>
    let c := statusConfigFor status
    if dashboardScope.contains c.icon then
      Except.ok ⟨c.label, c.variant, c.icon⟩
    else
      Except.error ("ReferenceError: " ++ c.icon ++ " is not defined")

/-! ## Standard-Compliance Validator (spec 4.2) -/

/-- Modelled from the spec: a compliance rule bound to one standard, whose
predicate is a pure function from the full entry set to an optional
finding. -/
structure Rule where
  id : String
  standard : String
  category : String
  severity : Severity
  pred : List AccountingEntry → Option Finding
  remediation_steps : List String

/-- Modelled from the spec (section 6): the five supported accounting
standard identifiers. -/
def supportedStandards : List String :=
  ["ifrs", "syscohada", "us_gaap", "pcg", "syscebnl"]

/-- Error taxonomy of the engine (spec section 7); only the variant the
claims exercise is modelled. -/
inductive ValidationError
  | UnsupportedStandardError
deriving DecidableEq

/-- Modelled from the spec: `validate(document, standard)`.  An
unsupported standard identifier fails with `UnsupportedStandardError`;
otherwise the rules bound to the standard are each evaluated
independently against the full entry set and the optional findings are
collected. -/
def validateWith (catalog : List Rule) (doc : Document) (std : String) :
    Except ValidationError (List Finding) :=
  if std ∈ supportedStandards then
    Except.ok ((catalog.filter (fun r => r.standard == std)).filterMap
      (fun r => r.pred doc.entries))
  else
    Except.error ValidationError.UnsupportedStandardError

/-- Sum of the signed minor-unit integer amounts of the entries of one
balancing group (the entries mapped to group `g` by `key`). -/
def groupSum (key : AccountingEntry → String) (entries : List AccountingEntry)
    (g : String) : Int :=
  ((entries.filter (fun e => key e == g)).map (fun e => e.amount)).sum

/-- Balancing groups present in an entry list: the group keys of the
entries, first occurrences kept. -/
def balanceGroups (key : AccountingEntry → String)
    (entries : List AccountingEntry) : List String :=
  (entries.map key).eraseDups

/-- Modelled from the spec: the balance rule of the Standard-Compliance
Validator.  Debits must sum to exactly zero against credits per balancing
group; the check is exact equality of the minor-unit integer sum with 0,
with no epsilon tolerance.  One violation finding is produced per
unbalanced group. -/
def balanceRule (key : AccountingEntry → String)
    (entries : List AccountingEntry) : List Finding :=
  (balanceGroups key entries).filterMap (fun g =>
    if groupSum key entries g = 0 then none
    else some ⟨"balance", Severity.critical,
      ((entries.filter (fun e => key e == g)).map (fun e => e.id)),
      "unbalanced group " ++ g, 1⟩)

/-! ## Cross-Document Validator (spec 4.3) -/

/-- Total of the signed amounts a document posts to one account. -/
def accountTotal (d : Document) (a : String) : Int :=
  ((d.entries.filter (fun e => e.account_code == a)).map
    (fun e => e.amount)).sum

/-- Maximum pairwise discrepancy of a list of totals: the maximum minus
the minimum, which equals the largest absolute difference over all
pairs. -/
def maxDiscrepancy : List Int → Int
  | [] => 0
  | x :: t => (t.foldl max x) - (t.foldl min x)

/-- Modelled from the spec: `validateCrossDocument(documents[])`.  With
fewer than two documents it returns an empty finding list; otherwise,
for each account referenced by any document it compares the account
totals across all documents and reports the maximum discrepancy found
(not the average) when it is nonzero. -/
def validateCrossDocument (docs : List Document) : List Finding :=
  if docs.length < 2 then []
  else
    ((docs.flatMap (fun d => d.entries.map (fun e => e.account_code))).eraseDups).filterMap
      (fun a =>
        let totals := docs.map (fun d => accountTotal d a)
        let disc := maxDiscrepancy totals
        if disc = 0 then none
        else some ⟨"cross_document", Severity.error, [],
          "account " ++ a ++ " differs across documents by " ++ toString disc, 1⟩)

/-! ## Aggregator / Scorer (spec 4.6) -/

/-- Modelled from the spec: severity weights used by the scorer
(critical 1.0, error 0.6, warning 0.3, info 0.05), as exact rationals. -/
def weight : Severity → Rat
  | Severity.critical => 1
  | Severity.error => 3 / 5
  | Severity.warning => 3 / 10
  | Severity.info => 1 / 20

/-- Total severity weight of a finding list. -/
def weightSum (l : List Finding) : Rat :=
  l.foldr (fun f acc => weight f.severity + acc) 0

/-- Rank used to sort findings by severity, critical first. -/
def sevRank : Severity → Nat
  | Severity.critical => 0
  | Severity.error => 1
  | Severity.warning => 2
  | Severity.info => 3

/-- Strict ordering of findings: by severity rank (critical first), then
by score descending; equal keys are never reordered so the sort below is
stable. -/
def findingBefore (a b : Finding) : Bool :=
  sevRank a.severity < sevRank b.severity ||
    (sevRank a.severity == sevRank b.severity && decide (b.score < a.score))

/-- Stable insertion of a finding into a sorted finding list. -/
def insertFinding (x : Finding) : List Finding → List Finding
  | [] => [x]
  | y :: t => if findingBefore x y then x :: y :: t else y :: insertFinding x t

/-- Stable sort of findings by severity (critical first) then score
descending; ties keep insertion order. -/
def sortFindings (l : List Finding) : List Finding :=
  l.foldr insertFinding []

/-- Count of merged findings per severity. -/
def distOf (l : List Finding) : SeverityDist :=
  ⟨l.countP (fun f => f.severity == Severity.critical),
   l.countP (fun f => f.severity == Severity.error),
   l.countP (fun f => f.severity == Severity.warning),
   l.countP (fun f => f.severity == Severity.info)⟩

/-- Modelled from the spec: `aggregate(findingsBySource)`.  The finding
lists of the validators are merged; `compliance_score` is 1 minus the
weighted violation density, the total severity weight normalized by the
number of rules/checks evaluated (`totalChecks`); findings are sorted by
severity then score descending with a stable sort.  Rational arithmetic
makes the score deterministic and reproducible; division by a zero check
count yields density 0. -/
def aggregate (std : String) (findingsBySource : List (List Finding))
    (totalChecks : Nat) : ComplianceReport :=
  let merged := findingsBySource.flatten
  ⟨std, 1 - weightSum merged / (totalChecks : Rat), sortFindings merged,
   distOf merged, [], 0⟩

/-! ## Alert & Recommendation Emitter (spec 4.7) -/

/-- An actionable alert produced from a finding, carrying the due date as
a day offset from the emission time. -/
structure Alert where
  source : String
  message : String
  due_date : Nat
deriving DecidableEq

/-- Modelled from the spec: due-date policy constants in days per
severity (critical: immediate, error: 7 days, warning: 30 days).  The
info row is never converted to an alert; its value mirrors warning. -/
def dueDays : Severity → Nat
  | Severity.critical => 0
  | Severity.error => 7
  | Severity.warning => 30
  | Severity.info => 30

/-- The alert derived from one finding at emission time `now` (days). -/
def toAlert (now : Nat) (f : Finding) : Alert :=
  ⟨f.source, f.message, now + dueDays f.severity⟩

/-- Whether a finding is converted into an alert: only critical and
error findings are. -/
def isActionable (f : Finding) : Bool :=
  match f.severity with
  | Severity.critical => true
  | Severity.error => true
  | _ => false

/-- Modelled from the spec: static remediation-text table keyed on the
finding source. -/
def recommendationTable (src : String) : List String :=
  if src == "balance" then ["Review the unbalanced groups"]
  else if src == "cross_document" then ["Reconcile the documents"]
  else if src == "temporal" then ["Investigate the anomalous period"]
  else if src == "suspicious_entry" then ["Investigate the flagged entries"]
  else ["Review the finding"]

/-- Modelled from the spec: `emit(report)`.  Each critical or error
finding becomes an alert whose due date is derived from its severity via
the policy constants; recommendations come from the static table with
duplicates collapsed. -/
def emit (rep : ComplianceReport) (now : Nat) : List Alert × List String :=
  ((rep.findings.filter isActionable).map (toAlert now),
   (rep.findings.flatMap (fun f => recommendationTable f.source)).eraseDups)

/-! ## Temporal Consistency Validator (spec 4.4) -/

/-- Calendar period (month bucket) of a date: months since year 0. -/
def periodKey (d : Date) : Nat :=
  d.year * 12 + (d.month - 1)

/-- Account codes referenced by a document, first occurrences kept. -/
def accountCodes (doc : Document) : List String :=
  (doc.entries.map (fun e => e.account_code)).eraseDups

/-- Ordered insertion into a sorted list of naturals. -/
def insertNat (x : Nat) : List Nat → List Nat
  | [] => [x]
  | y :: t => if x ≤ y then x :: y :: t else y :: insertNat x t

/-- Insertion sort of a list of naturals, ascending. -/
def sortNat (l : List Nat) : List Nat :=
  l.foldr insertNat []

/-- The calendar periods of one account of a document, chronologically
sorted and without repetition: the history of the account. -/
def accountPeriods (doc : Document) (a : String) : List Nat :=
  sortNat (((doc.entries.filter (fun e => e.account_code == a)).map
    (fun e => periodKey e.date)).eraseDups)

/-- Total posted to an account in one period, as an exact integer. -/
def periodTotal (doc : Document) (a : String) (p : Nat) : Int :=
  ((doc.entries.filter
    (fun e => e.account_code == a && periodKey e.date == p)).map
    (fun e => e.amount)).sum

/-- Mean of a list of integer totals, as an exact rational (0 for an
empty list). -/
def meanQ (l : List Int) : Rat :=
  (l.map (fun x => (x : Rat))).sum / (l.length : Rat)

/-- Population variance of a list of integer totals, as an exact
rational (0 for an empty list). -/
def varQ (l : List Int) : Rat :=
  ((l.map (fun x => ((x : Rat) - meanQ l) ^ 2)).sum) / (l.length : Rat)

/-- Modelled from the spec: the deviation threshold of the temporal
validator, 2 standard deviations by default. -/
def temporalK : Rat := 2

/-- Modelled from the spec: anomalous-period flags of one account.  The
periods of the account history are indexed chronologically; the first
two periods (indices 0 and 1) are never flagged (insufficient baseline,
an explicit edge-case policy).  A later period is flagged when its total
deviates by more than `temporalK` standard deviations from the trailing
mean, compared exactly in rational arithmetic as
deviation^2 > K^2 * variance.  The score is the normalized squared
deviation capped at 1 (1 when the baseline variance is zero). -/
def accountFlags (doc : Document) (a : String) : List (String × Nat × Rat) :=
  let ps := accountPeriods doc a
  (List.range ps.length).filterMap (fun i =>
    if i < 2 then none
    else
      let prev := (ps.take i).map (periodTotal doc a)
      let cur : Rat := (periodTotal doc a (ps.getD i 0) : Rat)
      let m := meanQ prev
      let v := varQ prev
      let dev := cur - m
      if dev ^ 2 > temporalK ^ 2 * v then
        some (a, i, if v = 0 then 1 else min 1 (dev ^ 2 / (temporalK ^ 2 * v)))
      else none)

/-- All anomalous-period flags of a document: one per
(account, anomalous period index) pair. -/
def temporalFlags (doc : Document) : List (String × Nat × Rat) :=
  (accountCodes doc).flatMap (accountFlags doc)

/-- The finding built from one temporal flag. -/
def temporalFinding (t : String × Nat × Rat) : Finding :=
  ⟨"temporal", Severity.warning, [],
   "account " ++ t.1 ++ " anomalous in period index " ++ toString t.2.1,
   t.2.2⟩

/-- Modelled from the spec: `validateTemporal(document)`, one finding per
(account, anomalous period) pair. -/
def validateTemporal (doc : Document) : List Finding :=
  (temporalFlags doc).map temporalFinding

/-! ## Suspicious-Entry Detector (spec 4.5) -/

/-- Leading-digit worker, structurally recursive on a fuel bound so the
computation reduces definitionally. -/
def leadDigitAux : Nat → Nat → Nat
  | 0, n => n
  | fuel + 1, n => if n < 10 then n else leadDigitAux fuel (n / 10)

/-- Leading decimal digit of a natural number (the number itself is
always enough fuel, as each step divides by ten). -/
def leadDigit (n : Nat) : Nat :=
  leadDigitAux n n

/-- Benford expected first-digit proportions for digits 1..9, as the
standard rational approximations (the spec leaves the exact constants
open). -/
def benfordExpected : List Rat :=
  [301/1000, 176/1000, 125/1000, 97/1000, 79/1000,
   67/1000, 58/1000, 51/1000, 46/1000]

/-- Chi-square statistic of the leading-digit distribution of a list of
amounts against the Benford expectation, in exact rational arithmetic
(0 for an empty list, since division by zero yields 0). -/
def chiSquare (amts : List Int) : Rat :=
  let n : Rat := (amts.length : Rat)
  (((List.range 9).map (fun d =>
    let p := benfordExpected.getD d 0
    let obs : Rat := ((amts.countP (fun a => leadDigit a.natAbs == d + 1)) : Rat)
    (obs - n * p) ^ 2 / (n * p))).sum)

/-- Modelled from the spec: fixed chi-square threshold of the Benford
test (the 5 percent critical value for 8 degrees of freedom, 15.51). -/
def benfordThreshold : Rat := 1551 / 100

/-- Benford heuristic score of an account: 1 when the chi-square
statistic of its amounts exceeds the fixed threshold, else 0. -/
def benfordScore (amts : List Int) : Rat :=
  if chiSquare amts > benfordThreshold then 1 else 0

/-- Whether an amount is a suspiciously round number: an exact multiple
of one thousand currency units (100000 minor units). -/
def isRound (a : Int) : Bool :=
  a % 100000 == 0

/-- Round-number frequency score of an account: the round-entry
proportion when it exceeds the frequency threshold of one half, else
0. -/
def roundFreqScore (amts : List Int) : Rat :=
  let n := amts.length
  let r := amts.countP isRound
  if n < 2 * r then ((r : Rat) / (n : Rat)) else 0

/-- Amounts a document posts to one account. -/
def accountAmounts (doc : Document) (a : String) : List Int :=
  (doc.entries.filter (fun e => e.account_code == a)).map (fun e => e.amount)

/-- Duplicate heuristic score of one entry: 1 when the same account,
date, amount and description appear more than once in the document, else
0. -/
def dupScore (doc : Document) (e : AccountingEntry) : Rat :=
  if 2 ≤ doc.entries.countP (fun x =>
      x.account_code == e.account_code && x.date == e.date &&
      x.amount == e.amount && x.description == e.description)
  then 1 else 0

/-- Modelled from the spec: heuristic weights of the composite detector
(the spec leaves the constants open; each weight is at most 1). -/
def wBenford : Rat := 1

/-- Weight of the round-number heuristic. -/
def wRound : Rat := 9 / 10

/-- Weight of the duplicate heuristic. -/
def wDup : Rat := 1

/-- Modelled from the spec: combined suspicion score of one entry, the
weighted maximum (not average) of the three heuristic scores, so a
single strong signal is never diluted. -/
def suspicionScore (doc : Document) (e : AccountingEntry) : Rat :=
  max (wBenford * benfordScore (accountAmounts doc e.account_code))
    (max
      (wRound * (if isRound e.amount
        then roundFreqScore (accountAmounts doc e.account_code) else 0))
      (wDup * dupScore doc e))

/-- Modelled from the spec: default minimum score threshold of the
detector. -/
def minScoreDefault : Rat := 1 / 2

/-- Modelled from the spec: `detectSuspicious(document)`.  An entry whose
combined suspicion score is below the configured minimum score threshold
is not reported at all; every reported finding carries the combined
score of its entry. -/
def detectSuspicious (minScore : Rat) (doc : Document) : List Finding :=
  doc.entries.filterMap (fun e =>
    let s := suspicionScore doc e
    if minScore ≤ s then
      some ⟨"suspicious_entry", Severity.warning, [e.id],
        "suspicious entry " ++ toString e.id, s⟩
    else none)

/-! ## Data Normalizer (spec 4.1) -/

/-- A raw input row: arbitrary key-value data whose column names vary by
source format. -/
def RawRow : Type := List (String × String)

/-- Parse a nonempty all-digit character list as a natural number. -/
def parseNatQ (cs : List Char) : Option Nat :=
  if cs ≠ [] ∧ cs.all Char.isDigit then
    some (cs.foldl (fun acc c => acc * 10 + (c.toNat - 48)) 0)
  else none

/-- Parse a decimal integer string with an optional leading minus
sign. -/
def parseIntQ (s : String) : Option Int :=
  match s.data with
  | '-' :: rest => (parseNatQ rest).map (fun n => -(n : Int))
  | cs => (parseNatQ cs).map (fun n => (n : Int))

/-- Whether a year is a leap year of the Gregorian calendar. -/
def isLeap (y : Nat) : Bool :=
  y % 4 == 0 && (y % 100 != 0 || y % 400 == 0)

/-- Days of a month of a year in the Gregorian calendar. -/
def daysInMonth (y m : Nat) : Nat :=
  if m == 2 then (if isLeap y then 29 else 28)
  else if m == 4 || m == 6 || m == 9 || m == 11 then 30
  else 31

/-- Parse a YYYY-MM-DD string as a valid calendar date. -/
def parseDateQ (s : String) : Option Date :=
  match s.splitOn "-" with
  | [ys, ms, ds] =>
    match parseNatQ ys.data, parseNatQ ms.data, parseNatQ ds.data with
    | some y, some m, some d =>
      if 1 ≤ m ∧ m ≤ 12 ∧ 1 ≤ d ∧ d ≤ daysInMonth y m then
        some ⟨y, m, d⟩
      else none
    | _, _, _ => none
  | _ => none

/-- Modelled from the spec: deterministic column-alias lookup.  The
first key of the row matching one of the aliases is taken. -/
def lookupAlias (aliases : List String) (row : RawRow) : Option String :=
  (row.find? (fun kv => aliases.contains kv.1)).map (fun kv => kv.2)

/-- Column aliases of the canonical account code field. -/
def accountAliases : List String :=
  ["account_code", "compte", "account"]

/-- Column aliases of the canonical date field. -/
def dateAliases : List String :=
  ["date", "Date"]

/-- Column aliases of a signed amount column. -/
def amountAliases : List String :=
  ["amount", "montant"]

/-- Column aliases of a debit column. -/
def debitAliases : List String :=
  ["debit", "DR", "montant_debit"]

/-- Column aliases of a credit column. -/
def creditAliases : List String :=
  ["credit", "CR", "montant_credit"]

/-- Modelled from the spec: resolve the signed minor-unit amount of a
row.  A signed amount column is used as is; otherwise a nonzero debit
maps to a positive amount and a nonzero credit to a negative one (debit
positive, credit negative sign convention). -/
def resolveAmount (row : RawRow) : Option Int :=
  match lookupAlias amountAliases row with
  | some s => parseIntQ s
  | none =>
    match (lookupAlias debitAliases row).bind parseIntQ with
    | some d => if d ≠ 0 then some d else
        ((lookupAlias creditAliases row).bind parseIntQ).map (fun c => -c)
    | none =>
      ((lookupAlias creditAliases row).bind parseIntQ).map (fun c => -c)

/-- The canonical fields resolved from one raw row. -/
structure ResolvedRow where
  account_code : String
  amount : Int
  date : Date
deriving DecidableEq

/-- Modelled from the spec: resolve the required fields of one row.
Each missing or unparsable required field (account_code, amount, date)
is a row-level `NormalizationError`, reported as a reason string; a zero
amount violates the entry invariant and counts as unresolvable. -/
def resolveRow (row : RawRow) : Except String ResolvedRow :=
  match lookupAlias accountAliases row with
  | none => Except.error "missing account_code"
  | some a =>
    if a = "" then Except.error "missing account_code"
    else
      match resolveAmount row with
      | none => Except.error "missing amount"
      | some v =>
        if v = 0 then Except.error "missing amount"
        else
          match lookupAlias dateAliases row with
          | none => Except.error "missing date"
          | some ds =>
            match parseDateQ ds with
            | none => Except.error "invalid date"
            | some d => Except.ok ⟨a, v, d⟩

/-- The accounting entry built from a resolved row, with the row index
as entry id. -/
def entryOfRow (t : DeclaredType) (i : Nat) (r : ResolvedRow) :
    AccountingEntry :=
  ⟨i, r.account_code, "", r.date, r.amount, "XOF",
   (match t with
    | DeclaredType.balance => "balance"
    | DeclaredType.journal => "journal"
    | DeclaredType.ledger => "ledger"),
   "", none⟩

/-- Modelled from the spec: `normalize(rawInput, declaredType)`.  Every
row is resolved independently; a row whose required fields resolve
becomes an entry of the returned document, and every other row is
excluded and listed in the warnings with its row index and reason, so a
single bad row never fails the whole batch. -/
def normalize (raw : List RawRow) (t : DeclaredType) :
    Document × List (Nat × String) :=
  let results := raw.enum.map (fun p => (p.1, resolveRow p.2))
  (⟨"import", t,
    results.filterMap (fun p =>
      match p.2 with
      | Except.ok r => some (entryOfRow t p.1 r)
      | Except.error _ => none)⟩,
   results.filterMap (fun p =>
     match p.2 with
     | Except.ok _ => none
     | Except.error reason => some (p.1, reason)))

/-! ## Concrete fixtures used by the witnesses -/

/-- Shorthand for a journal entry used by the concrete fixtures. -/
def mkEntry (i : Nat) (a : String) (y m d : Nat) (amt : Int) (desc : String) :
    AccountingEntry :=
  ⟨i, a, "", ⟨y, m, d⟩, amt, "XOF", "journal", desc, none⟩

/-- A document holding one duplicated entry pair (same account, date,
amount and description). -/
def docDup : Document :=
  ⟨"d", DeclaredType.journal,
   [mkEntry 1 "411" 2024 1 10 123456 "inv",
    mkEntry 2 "411" 2024 1 10 123456 "inv"]⟩

/-- The finding the suspicious-entry detector reports for the first
duplicated entry of `docDup`. -/
def findingDup : Finding :=
  ⟨"suspicious_entry", Severity.warning, [1], "suspicious entry 1", 1⟩

/-- Account 601 with six stable months and a ninefold jump in the
seventh. -/
def docW601 : Document :=
  ⟨"d", DeclaredType.journal,
   [mkEntry 1 "601" 2024 1 10 1000 "", mkEntry 2 "601" 2024 2 10 1000 "",
    mkEntry 3 "601" 2024 3 10 1000 "", mkEntry 4 "601" 2024 4 10 1000 "",
    mkEntry 5 "601" 2024 5 10 1000 "", mkEntry 6 "601" 2024 6 10 1000 "",
    mkEntry 7 "601" 2024 7 10 9000 ""]⟩

/-- A balanced entry pair: one debit and one matching credit in minor
units. -/
def entriesBal : List AccountingEntry :=
  [mkEntry 1 "512" 2024 1 10 100000 "", mkEntry 2 "701" 2024 1 10 (-100000) ""]

/-- A document with no entries. -/
def docEmptyW : Document := ⟨"d", DeclaredType.journal, []⟩

/-- The finding `ruleW1` reports on an empty entry set. -/
def findingR1 : Finding := ⟨"r1", Severity.critical, [], "empty", 1⟩

/-- An IFRS rule reporting a finding exactly on an empty entry set. -/
def ruleW1 : Rule :=
  ⟨"r1", "ifrs", "completeness", Severity.critical,
   (fun es => if es.length == 0 then some findingR1 else none), []⟩

/-- An IFRS rule that never reports. -/
def ruleW2 : Rule :=
  ⟨"r2", "ifrs", "other", Severity.info, (fun _ => none), []⟩

/-- A critical finding fixture for the aggregator and emitter. -/
def fW : Finding := ⟨"balance", Severity.critical, [], "m", 1⟩

/-- Validator outputs fixture: one critical finding and one empty
list. -/
def findingsW : List (List Finding) := [[fW], []]

/-- A report carrying the single critical finding `fW`. -/
def repW : ComplianceReport := ⟨"ifrs", 1, [fW], ⟨1, 0, 0, 0⟩, [], 0⟩

/-- A raw row whose required fields all resolve. -/
def rowGood : RawRow :=
  [("account_code", "512"), ("debit", "100"), ("date", "2024-01-15")]

/-- A raw row missing the account code. -/
def rowBad : RawRow := [("date", "2024-01-15")]

/-- A raw batch with one good and one bad row. -/
def rawW : List RawRow := [rowGood, rowBad]

/-! ## Theorems -/

/-- C6: for every input list of documents containing fewer than two
documents (including the empty list), `validateCrossDocument` returns an
empty finding list and does not raise an error. -/
theorem validateCrossDocument_lt_two (docs : List Document)
    (h : docs.length < 2) : validateCrossDocument docs = [] := by
  unfold validateCrossDocument
  rw [if_pos h]

/-- Witness for C6: the empty document list has fewer than two documents
and yields an empty finding list. -/
theorem validateCrossDocument_lt_two_witness :
    ([] : List Document).length < 2 ∧ validateCrossDocument [] = [] :=
  ⟨by decide, validateCrossDocument_lt_two [] (by decide)⟩

/-- C10: for every project status equal to draft, or outside the three
configured statuses, `getStatusBadge` selects the draft configuration,
whose icon is the identifier Edit; Edit is absent from the Dashboard
module scope, so rendering the badge evaluates an unbound identifier and
throws a ReferenceError instead of returning a badge element. -/
theorem getStatusBadge_draft_throws (status : String)
    (h : status = "draft" ∨
      status ∉ (["draft", "in_progress", "completed"] : List String)) :
    (statusConfigFor status).icon = "Edit" ∧ "Edit" ∉ dashboardScope ∧
    getStatusBadge status = Except.error "ReferenceError: Edit is not defined" := by
  refine ⟨?_, by decide, rfl⟩
  rcases h with rfl | h
  · rfl
  · simp only [List.mem_cons, List.not_mem_nil, or_false, not_or] at h
    obtain ⟨h1, h2, h3⟩ := h
    have e1 : ("draft" == status) = false := beq_eq_false_iff_ne.mpr (Ne.symm h1)
    have e2 : ("in_progress" == status) = false :=
      beq_eq_false_iff_ne.mpr (Ne.symm h2)
    have e3 : ("completed" == status) = false :=
      beq_eq_false_iff_ne.mpr (Ne.symm h3)
    simp [statusConfigFor, statusConfigList, List.find?, e1, e2, e3]

/-- Witness for C10: the draft status itself selects the Edit icon, Edit
is unbound, and the badge rendering throws. -/
theorem getStatusBadge_draft_throws_witness :
    (statusConfigFor "draft").icon = "Edit" ∧ "Edit" ∉ dashboardScope ∧
    getStatusBadge "draft" =
      Except.error "ReferenceError: Edit is not defined" :=
  getStatusBadge_draft_throws "draft" (Or.inl rfl)

/-- C7: `validateWith` fails with `UnsupportedStandardError` exactly when
the supplied standard identifier is not one of ifrs, syscohada, us_gaap,
pcg, syscebnl; the error is the value surfaced to the caller. -/
theorem validateWith_unsupported_iff (catalog : List Rule) (doc : Document)
    (std : String) :
    validateWith catalog doc std =
        Except.error ValidationError.UnsupportedStandardError ↔
      ¬(std = "ifrs" ∨ std = "syscohada" ∨ std = "us_gaap" ∨ std = "pcg" ∨
        std = "syscebnl") := by
  unfold validateWith
  by_cases h : std ∈ supportedStandards
  · rw [if_pos h]
    simp only [supportedStandards, List.mem_cons, List.not_mem_nil,
      or_false] at h
    simp [h]
  · rw [if_neg h]
    simp only [supportedStandards, List.mem_cons, List.not_mem_nil,
      or_false] at h
    simp [h]

/-- Witness for C7: the identifier french_gaap used by the UI standard
list is not one of the five supported identifiers, so validation of any
document against it fails with `UnsupportedStandardError`. -/
theorem validateWith_unsupported_iff_witness :
    validateWith [] docEmptyW "french_gaap" =
      Except.error ValidationError.UnsupportedStandardError :=
  (validateWith_unsupported_iff [] docEmptyW "french_gaap").mpr (by decide)

/-- C2: the balance rule produces no violation finding exactly when the
signed minor-unit integer amounts of every balancing group sum to
exactly zero; the comparison is exact integer equality, so balanced
groups are never flagged and any nonzero imbalance, however small, is. -/
theorem balanceRule_eq_nil_iff (key : AccountingEntry → String)
    (entries : List AccountingEntry) :
    balanceRule key entries = [] ↔
      ∀ g ∈ balanceGroups key entries, groupSum key entries g = 0 := by
  unfold balanceRule
  rw [List.filterMap_eq_nil_iff]
  constructor
  · intro h g hg
    by_contra hne
    have := h g hg
    rw [if_neg hne] at this
    cases this
  · intro h g hg
    rw [if_pos (h g hg)]

/-- Witness for C2: a balanced debit-credit pair in minor units produces
no violation. -/
theorem balanceRule_eq_nil_iff_witness :
    balanceRule (fun e => e.document_source) entriesBal = [] :=
  (balanceRule_eq_nil_iff (fun e => e.document_source) entriesBal).mpr
    (by decide)

/-- Every severity weight is nonnegative. -/
theorem weight_nonneg (s : Severity) : 0 ≤ weight s := by
  cases s <;> norm_num [weight]

/-- Every severity weight is at most one. -/
theorem weight_le_one (s : Severity) : weight s ≤ 1 := by
  cases s <;> norm_num [weight]

/-- The total severity weight of a finding list is nonnegative. -/
theorem weightSum_nonneg (l : List Finding) : 0 ≤ weightSum l := by
  induction l with
  | nil => norm_num [weightSum]
  | cons f t ih =>
    have := weight_nonneg f.severity
    simp only [weightSum, List.foldr_cons] at ih ⊢
    linarith

/-- The total severity weight of a finding list is at most its length. -/
theorem weightSum_le_length (l : List Finding) :
    weightSum l ≤ (l.length : Rat) := by
  induction l with
  | nil => norm_num [weightSum]
  | cons f t ih =>
    have := weight_le_one f.severity
    simp only [weightSum, List.foldr_cons, List.length_cons] at ih ⊢
    push_cast
    linarith

/-- C1: for every validation run (where each of the `totalChecks`
evaluated rules/checks contributes at most one finding, so the merged
finding list is no longer than the check count), the aggregated
compliance score lies in the closed interval [0,1], and it equals
exactly 1 when the merged finding list is empty. -/
theorem aggregate_score_unit_interval (std : String)
    (findingsBySource : List (List Finding)) (totalChecks : Nat)
    (h : findingsBySource.flatten.length ≤ totalChecks) :
    0 ≤ (aggregate std findingsBySource totalChecks).compliance_score ∧
    (aggregate std findingsBySource totalChecks).compliance_score ≤ 1 ∧
    (findingsBySource.flatten = [] →
      (aggregate std findingsBySource totalChecks).compliance_score = 1) := by
  have hs : (aggregate std findingsBySource totalChecks).compliance_score =
      1 - weightSum findingsBySource.flatten / (totalChecks : Rat) := rfl
  refine ⟨?_, ?_, ?_⟩
  · rw [hs]
    rcases Nat.eq_zero_or_pos totalChecks with h0 | hpos
    · subst h0
      have hempty : findingsBySource.flatten = [] :=
        List.length_eq_zero.mp (Nat.le_zero.mp h)
      rw [hempty]
      norm_num [weightSum]
    · have hn : (0 : Rat) < (totalChecks : Rat) := by exact_mod_cast hpos
      have hle : weightSum findingsBySource.flatten / (totalChecks : Rat) ≤ 1 := by
        rw [div_le_one hn]
        calc weightSum findingsBySource.flatten
            ≤ (findingsBySource.flatten.length : Rat) := weightSum_le_length _
          _ ≤ (totalChecks : Rat) := by exact_mod_cast h
      linarith
  · rw [hs]
    have hnn : 0 ≤ weightSum findingsBySource.flatten / (totalChecks : Rat) :=
      div_nonneg (weightSum_nonneg _) (by positivity)
    linarith
  · intro hempty
    rw [hs, hempty]
    norm_num [weightSum]

/-- Witness for C1: one critical finding out of five checks gives a
score inside [0,1], at input where the hypothesis holds. -/
theorem aggregate_score_unit_interval_witness :
    0 ≤ (aggregate "ifrs" findingsW 5).compliance_score ∧
    (aggregate "ifrs" findingsW 5).compliance_score ≤ 1 ∧
    (findingsW.flatten = [] →
      (aggregate "ifrs" findingsW 5).compliance_score = 1) :=
  aggregate_score_unit_interval "ifrs" findingsW 5 (by decide)

/-- C3: `validateWith` is deterministic (the same document and standard
always produce the identical finding list) and the produced finding set
does not depend on the order in which the rules of the catalog are
evaluated: evaluating a permuted catalog permutes the findings. -/
theorem validateWith_deterministic_order_independent
    (catalog catalog2 : List Rule) (doc : Document) (std : String)
    (h : catalog.Perm catalog2) :
    validateWith catalog doc std = validateWith catalog doc std ∧
    ∀ fs fs2, validateWith catalog doc std = Except.ok fs →
      validateWith catalog2 doc std = Except.ok fs2 → fs.Perm fs2 := by
  refine ⟨rfl, ?_⟩
  intro fs fs2 h1 h2
  unfold validateWith at h1 h2
  by_cases hstd : std ∈ supportedStandards
  · rw [if_pos hstd] at h1 h2
    cases h1
    cases h2
    exact (h.filter (fun r => r.standard == std)).filterMap
      (fun r => r.pred doc.entries)
  · rw [if_neg hstd] at h1
    cases h1

/-- Witness for C3: swapping two concrete IFRS rules leaves the finding
set a permutation of itself. -/
theorem validateWith_order_independent_witness :
    List.Perm [findingR1] [findingR1] :=
  (validateWith_deterministic_order_independent [ruleW1, ruleW2]
    [ruleW2, ruleW1] docEmptyW "ifrs"
    (List.Perm.swap ruleW2 ruleW1 [])).2 [findingR1] [findingR1] rfl rfl

/-- C4: every finding emitted by `detectSuspicious` has a score greater
than or equal to the configured minimum score threshold; an entry whose
combined suspicion score is below the threshold produces no finding. -/
theorem detectSuspicious_score_ge_threshold (minScore : Rat)
    (doc : Document) (f : Finding)
    (h : f ∈ detectSuspicious minScore doc) : minScore ≤ f.score := by
  unfold detectSuspicious at h
  rw [List.mem_filterMap] at h
  obtain ⟨e, _, hf⟩ := h
  by_cases hs : minScore ≤ suspicionScore doc e
  · rw [if_pos hs] at hf
    cases hf
    exact hs
  · rw [if_neg hs] at hf
    cases hf

/-- Witness for C4: with the default threshold of one half, the finding
reported for a duplicated entry carries a score of at least one half. -/
theorem detectSuspicious_score_ge_threshold_witness :
    findingDup ∈ detectSuspicious minScoreDefault docDup ∧
    minScoreDefault ≤ findingDup.score :=
  ⟨by decide, detectSuspicious_score_ge_threshold minScoreDefault docDup
    findingDup (by decide)⟩

/-- C5: the temporal validator never flags the first two calendar
periods of an account's history, regardless of the magnitude of their
totals: every flag produced for any account carries a period index of at
least 2, and the findings of `validateTemporal` are exactly the flags. -/
theorem validateTemporal_skips_first_two_periods (doc : Document) :
    (∀ t ∈ temporalFlags doc, 2 ≤ t.2.1) ∧
    validateTemporal doc = (temporalFlags doc).map temporalFinding := by
  refine ⟨?_, rfl⟩
  intro t ht
  rw [temporalFlags, List.mem_flatMap] at ht
  obtain ⟨a, _, hf⟩ := ht
  rw [accountFlags, List.mem_filterMap] at hf
  obtain ⟨i, _, heq⟩ := hf
  by_cases h2 : i < 2
  · rw [if_pos h2] at heq
    cases heq
  · rw [if_neg h2] at heq
    simp only at heq
    split at heq
    · cases heq
      simpa using Nat.le_of_not_lt h2
    · cases heq

/-- Witness for C5: in the seven-month history of account 601 the jump
is flagged at period index 6, which is at least 2. -/
theorem validateTemporal_skips_first_two_periods_witness :
    ("601", 6, (1 : Rat)) ∈ temporalFlags docW601 ∧
    2 ≤ (("601", 6, (1 : Rat)) : String × Nat × Rat).2.1 :=
  ⟨by decide, (validateTemporal_skips_first_two_periods docW601).1
    ("601", 6, (1 : Rat)) (by decide)⟩

/-- C9: `emit` converts exactly the critical and error findings of the
report into alerts, and each alert's due date is derived from its
finding's severity through the fixed policy constants: critical maps to
an immediate due date (0 days), error to 7 days and warning to 30
days. -/
theorem emit_alert_policy (rep : ComplianceReport) (now : Nat) :
    (∀ a ∈ (emit rep now).1, ∃ f ∈ rep.findings,
      (f.severity = Severity.critical ∨ f.severity = Severity.error) ∧
      a = toAlert now f ∧ a.due_date = now + dueDays f.severity) ∧
    (∀ f ∈ rep.findings,
      (f.severity = Severity.critical ∨ f.severity = Severity.error) →
      toAlert now f ∈ (emit rep now).1) ∧
    dueDays Severity.critical = 0 ∧ dueDays Severity.error = 7 ∧
    dueDays Severity.warning = 30 := by
  refine ⟨?_, ?_, rfl, rfl, rfl⟩
  · intro a ha
    simp only [emit, List.mem_map, List.mem_filter] at ha
    obtain ⟨f, ⟨hf, hact⟩, rfl⟩ := ha
    refine ⟨f, hf, ?_, rfl, rfl⟩
    unfold isActionable at hact
    cases hsev : f.severity <;> rw [hsev] at hact <;> simp_all
  · intro f hf hsev
    simp only [emit, List.mem_map]
    refine ⟨f, List.mem_filter.mpr ⟨hf, ?_⟩, rfl⟩
    unfold isActionable
    rcases hsev with h | h <;> rw [h]

/-- Witness for C9: the critical finding of the fixture report is
converted into an alert, and the policy constants read 0, 7 and 30
days. -/
theorem emit_alert_policy_witness :
    toAlert 100 fW ∈ (emit repW 100).1 ∧
    dueDays Severity.critical = 0 ∧ dueDays Severity.error = 7 ∧
    dueDays Severity.warning = 30 :=
  ⟨(emit_alert_policy repW 100).2.1 fW (by decide) (Or.inl rfl),
   (emit_alert_policy repW 100).2.2⟩

/-- Helper for C8: splitting an indexed resolution list into accepted
entries and warnings preserves the row count. -/
theorem filterMap_split_length (t : DeclaredType)
    (rs : List (Nat × Except String ResolvedRow)) :
    (rs.filterMap (fun p =>
      match p.2 with
      | Except.ok r => some (entryOfRow t p.1 r)
      | Except.error _ => none)).length +
    (rs.filterMap (fun p =>
      match p.2 with
      | Except.ok _ => none
      | Except.error reason => some (p.1, reason))).length = rs.length := by
  induction rs with
  | nil => simp
  | cons p ps ih =>
    rcases p with ⟨i, r⟩
    cases r <;> simp [List.filterMap_cons] <;> omega

/-- C8: `normalize` never fails the whole batch because of a single bad
row: every row becomes either an entry or a warning (their counts sum to
the batch size), every warning carries the index and reason of a row
whose required fields do not resolve, every such row is listed in the
warnings, and no entry of the returned document comes from such a
row. -/
theorem normalize_partial_failure (raw : List RawRow) (t : DeclaredType) :
    ((normalize raw t).1.entries.length + (normalize raw t).2.length =
      raw.length) ∧
    (∀ w ∈ (normalize raw t).2, ∃ row, raw[w.1]? = some row ∧
      resolveRow row = Except.error w.2) ∧
    (∀ i row, raw[i]? = some row → ∀ r, resolveRow row = Except.error r →
      (i, r) ∈ (normalize raw t).2) ∧
    (∀ i row, raw[i]? = some row → ∀ r, resolveRow row = Except.error r →
      ∀ e ∈ (normalize raw t).1.entries, e.id ≠ i) := by
  have hent : (normalize raw t).1.entries =
      (raw.enum.map (fun p => (p.1, resolveRow p.2))).filterMap (fun p =>
        match p.2 with
        | Except.ok r => some (entryOfRow t p.1 r)
        | Except.error _ => none) := rfl
  have hwarn : (normalize raw t).2 =
      (raw.enum.map (fun p => (p.1, resolveRow p.2))).filterMap (fun p =>
        match p.2 with
        | Except.ok _ => none
        | Except.error reason => some (p.1, reason)) := rfl
  refine ⟨?_, ?_, ?_, ?_⟩
  · rw [hent, hwarn]
    calc ((raw.enum.map (fun p => (p.1, resolveRow p.2))).filterMap _).length +
        ((raw.enum.map (fun p => (p.1, resolveRow p.2))).filterMap _).length
        = (raw.enum.map (fun p => (p.1, resolveRow p.2))).length :=
          filterMap_split_length t _
      _ = raw.enum.length := List.length_map _ _
      _ = raw.length := List.enum_length
  · intro w hw
    rw [hwarn, List.mem_filterMap] at hw
    obtain ⟨p, hp, hmatch⟩ := hw
    rw [List.mem_map] at hp
    obtain ⟨q, hq, hpq⟩ := hp
    rcases p with ⟨i, er⟩
    cases er with
    | ok r => cases hmatch
    | error reason =>
      cases hmatch
      refine ⟨q.2, ?_, ?_⟩
      · have := List.mem_enum_iff_getElem?.mp hq
        have hq1 : q.1 = i := congrArg Prod.fst hpq
        rw [← hq1]
        exact this
      · exact congrArg Prod.snd hpq
  · intro i row hrow r herr
    rw [hwarn]
    rw [List.mem_filterMap]
    refine ⟨(i, Except.error r), ?_, rfl⟩
    rw [List.mem_map]
    refine ⟨(i, row), List.mem_enum_iff_getElem?.mpr hrow, ?_⟩
    simp [herr]
  · intro i row hrow r herr e he hid
    rw [hent, List.mem_filterMap] at he
    obtain ⟨p, hp, hmatch⟩ := he
    rw [List.mem_map] at hp
    obtain ⟨q, hq, hpq⟩ := hp
    rcases p with ⟨j, er⟩
    cases er with
    | error reason => cases hmatch
    | ok rr =>
      cases hmatch
      have hj : j = i := hid
      have hq1 : q.1 = j := congrArg Prod.fst hpq
      have hq2 : resolveRow q.2 = Except.ok rr := congrArg Prod.snd hpq
      have hget : raw[q.1]? = some q.2 := List.mem_enum_iff_getElem?.mp hq
      rw [hq1, hj, hrow] at hget
      cases hget
      rw [herr] at hq2
      cases hq2

/-- Witness for C8: a batch of one good and one bad row yields one entry
plus one warning, and the bad row at index 1 is listed with its
reason. -/
theorem normalize_partial_failure_witness :
    ((normalize rawW DeclaredType.journal).1.entries.length +
      (normalize rawW DeclaredType.journal).2.length = rawW.length) ∧
    (1, "missing account_code") ∈ (normalize rawW DeclaredType.journal).2 :=
  ⟨(normalize_partial_failure rawW DeclaredType.journal).1,
   (normalize_partial_failure rawW DeclaredType.journal).2.2.1 1 rowBad
     rfl "missing account_code" rfl⟩

end ZenCompta
